import Mathlib

/-!
Shallow embedding of the hotel-booking MCP relay server
(`src/mcp-server/src/mcpMain.ts`, with the alternative SocketManager
revision in `src/unnamed/part_004`), together with theorems settling the
spec claims about client selection, request correlation, timeouts, stale
sweeps, argument validation and result wrapping.

Conventions of the embedding:
- JavaScript dynamic values are modelled by `JsVal` (strings, numbers,
  booleans, null, undefined, objects as ordered field lists, arrays).
- The `Map<string, Socket>` registry `nextjsClients` is modelled as an
  insertion-ordered association list with JS `Map` semantics
  (`mapSet` overwrites in place, `mapDelete` removes, iteration order is
  insertion order).
- Each tool method of `SimpleMCPServer` is split into its synchronous
  prefix (`...Start`: client selection, immediate rejection, the
  `socket.emit`, the `socket.on` listener registration and the
  `setTimeout`) and the event-driven machinery (`World`,
  `deliverResponse`, `fireTimer`), which model the single-threaded
  event-loop semantics of the promise bodies.
-/

namespace McpRelay

/-- JavaScript runtime values, as far as the relay manipulates them. -/
inductive JsVal where
  | str (s : String)
  | num (n : Int)
  | boolean (b : Bool)
  | null
  | undef
  | obj (fields : List (String × JsVal))
  | arr (elems : List JsVal)
  deriving Repr

namespace JsVal

/-- `o?.k` / `(o as any).k`: field access; non-objects and missing
fields give `undefined`. -/
def getField : JsVal → String → JsVal
  | obj fields, k =>
      match fields.find? (fun p => p.1 = k) with
      | some p => p.2
      | none => undef
  | _, _ => undef

/-- JavaScript truthiness, for `sessionId ? a : b`. -/
def truthy : JsVal → Bool
  | str s => s ≠ ""
  | num n => n ≠ 0
  | boolean b => b
  | null => false
  | undef => false
  | obj _ => true
  | arr _ => true

/-- A single-quote character (code 39) as a string, used in the V8
TypeError message texts. -/
def sq : String := String.singleton (Char.ofNat 39)

/-- `(v as any).k`, a bare property access without optional chaining:
it throws a TypeError when `v` is `undefined` or `null` (the `Except`
error carries the V8 message text), and otherwise reads the field like
`getField` (primitives are boxed and yield `undefined`). -/
def getFieldStrict : JsVal → String → Except String JsVal
  | undef, k =>
      .error ("Cannot read properties of undefined (reading " ++
        sq ++ k ++ sq ++ ")")
  | null, k =>
      .error ("Cannot read properties of null (reading " ++
        sq ++ k ++ sq ++ ")")
  | v, k => .ok (v.getField k)

end JsVal

/-- The slice of a socket.io `Socket` that `mcpMain.ts` reads: its `id`
and its `connected` flag. -/
structure Socket where
  id : String
  connected : Bool
  deriving DecidableEq, Repr

/-- `this.nextjsClients : Map<string, Socket>`, as an insertion-ordered
association list. -/
abbrev Registry := List (String × Socket)

/-- JS `Map.get`. -/
def mapGet (m : Registry) (k : String) : Option Socket :=
  (m.find? (fun p => p.1 = k)).map (fun p => p.2)

/-- JS `Map.set`: overwrite in place if the key is present (keeping its
insertion-order slot), append otherwise. -/
def mapSet (m : Registry) (k : String) (v : Socket) : Registry :=
  match m with
  | [] => [(k, v)]
  | p :: rest => if p.1 = k then (k, v) :: rest else p :: mapSet rest k v

/-- JS `Map.delete`. -/
def mapDelete (m : Registry) (k : String) : Registry :=
  m.filter (fun p => p.1 ≠ k)

/-- `socket.on('register:nextjs', ...)` handler (and the `/tools`
auto-registration): `this.nextjsClients.set(socket.id, socket)`. -/
def registerClient (m : Registry) (s : Socket) : Registry :=
  mapSet m s.id s

/-- `socket.on('disconnect', ...)` handler:
`this.nextjsClients.delete(socket.id)`. -/
def disconnectClient (m : Registry) (id : String) : Registry :=
  mapDelete m id

/-- `SimpleMCPServer.cleanupStaleConnections`: collect the ids whose
socket reports `connected === false`, then delete each collected id. -/
def cleanupStaleConnections (m : Registry) : Registry :=
  let staleConnections := (m.filter (fun p => !p.2.connected)).map (fun p => p.1)
  staleConnections.foldl (fun acc socketId => mapDelete acc socketId) m

/-- `setInterval(() => this.cleanupStaleConnections(), 30000)` in
`startHttp`. -/
def cleanupIntervalMs : Nat := 30000

/-- `SimpleMCPServer.getBestAvailableClient`: lazy cleanup, then the
last entry of the connected-filtered registry ("most recently connected
client (last in the map)"). Returns the mutated registry together with
the selected socket. -/
def getBestAvailableClient (m : Registry) : Registry × Option Socket :=
  let m' := cleanupStaleConnections m
  if m'.length = 0 then (m', none)
  else
    let connectedClients := m'.filter (fun p => p.2.connected)
    if connectedClients.length = 0 then (m', none)
    else (m', (connectedClients.getLast?).map (fun p => p.2))

/-- The five tool names dispatched by the `CallToolRequestSchema`
handler and the HTTP `tools/call` branch. -/
inductive ToolName where
  | getCurrentPage
  | getClickableElements
  | clickElement
  | navigatePage
  | fillBookingForm
  deriving DecidableEq, Repr

/-- The in-flight state a tool method builds when a client was found:
the `socket.emit(requestEvent, requestPayload)`, the
`socket.on(responseEvent, handler)` registration, and the
`setTimeout(..., timeoutMs)`. `correlationId` records any per-call
correlation id attached to the outgoing request; `mcpMain.ts` attaches
none, so every constructed `PendingCall` carries `none`. -/
structure PendingCall where
  socketId : String
  requestEvent : String
  requestPayload : JsVal
  responseEvent : String
  timeoutMs : Nat
  correlationId : Option Nat
  deriving Repr

/-- Outcome of the synchronous prefix of a tool method's promise body:
either an immediate `reject(new Error(msg))` (no emit, no listener, no
timer), or a pending correlated request. -/
inductive CallStart where
  | rejected (msg : String)
  | pending (p : PendingCall)
  deriving Repr

/-- The request events emitted to the socket by the synchronous prefix:
none on rejection, exactly the one `socket.emit` otherwise. -/
def CallStart.emittedEvents : CallStart → List (String × String × JsVal)
  | .rejected _ => []
  | .pending p => [(p.socketId, p.requestEvent, p.requestPayload)]

/-- Whether the synchronous prefix started a `setTimeout` timer. -/
def CallStart.timerStarted : CallStart → Bool
  | .rejected _ => false
  | .pending _ => true

/-- The rejection message shared by all five tool methods when no
socket is found: `reject(new Error('No Next.js client connected'))`. -/
def noClientMsg : String := "No Next.js client connected"

/-- The message of the rejection produced when a tool method's
`setTimeout` fires: `reject(new Error('Timeout'))`. -/
def timeoutMsg : String := "Timeout"

/-- `sessionId ? this.nextjsClients.get(sessionId) : this.getBestAvailableClient()`,
shared by all five tool methods. A JS `Map` keyed by strings can only
hit when the lookup key is a string. Returns the (possibly
lazily-cleaned) registry and the socket found. -/
def selectSocket (m : Registry) (sessionId : JsVal) : Registry × Option Socket :=
  if sessionId.truthy then
    (m, match sessionId with
        | .str s => mapGet m s
        | _ => none)
  else getBestAvailableClient m

/-- `SimpleMCPServer.getCurrentPage`, synchronous prefix: select a
socket, reject with `noClientMsg` if none, otherwise register the
`mcp:pageInfo` listener, start the 5000 ms timer and emit
`mcp:getCurrentPage` with no payload. -/
def getCurrentPageStart (m : Registry) (sessionId : JsVal) : Registry × CallStart :=
  let (m', sock) := selectSocket m sessionId
  match sock with
  | none => (m', .rejected noClientMsg)
  | some s =>
      (m', .pending ⟨s.id, "mcp:getCurrentPage", .undef, "mcp:pageInfo", 5000, none⟩)

/-- `SimpleMCPServer.getClickableElements`, synchronous prefix:
5000 ms timer, emits `mcp:getClickableElements`, listens on
`mcp:clickableElements`. -/
def getClickableElementsStart (m : Registry) (sessionId : JsVal) : Registry × CallStart :=
  let (m', sock) := selectSocket m sessionId
  match sock with
  | none => (m', .rejected noClientMsg)
  | some s =>
      (m', .pending ⟨s.id, "mcp:getClickableElements", .undef, "mcp:clickableElements", 5000, none⟩)

/-- `SimpleMCPServer.clickElement`, synchronous prefix: 10000 ms timer,
emits `mcp:clickElement` carrying `elementName` (whatever value the
dispatcher extracted, with no validation), listens on `mcp:clickResult`. -/
def clickElementStart (m : Registry) (sessionId : JsVal) (elementName : JsVal) :
    Registry × CallStart :=
  let (m', sock) := selectSocket m sessionId
  match sock with
  | none => (m', .rejected noClientMsg)
  | some s =>
      (m', .pending ⟨s.id, "mcp:clickElement", elementName, "mcp:clickResult", 10000, none⟩)

/-- `SimpleMCPServer.navigatePage`, synchronous prefix: 10000 ms timer,
emits `mcp:navigatePage` carrying `page` unvalidated, listens on
`mcp:navigationResult`. -/
def navigatePageStart (m : Registry) (sessionId : JsVal) (page : JsVal) :
    Registry × CallStart :=
  let (m', sock) := selectSocket m sessionId
  match sock with
  | none => (m', .rejected noClientMsg)
  | some s =>
      (m', .pending ⟨s.id, "mcp:navigatePage", page, "mcp:navigationResult", 10000, none⟩)

/-- `SimpleMCPServer.fillBookingForm`, synchronous prefix: 15000 ms
timer, emits `mcp:fillBookingForm` carrying the whole `formData` value,
listens on `mcp:bookingFormResult`. -/
def fillBookingFormStart (m : Registry) (sessionId : JsVal) (formData : JsVal) :
    Registry × CallStart :=
  let (m', sock) := selectSocket m sessionId
  match sock with
  | none => (m', .rejected noClientMsg)
  | some s =>
      (m', .pending ⟨s.id, "mcp:fillBookingForm", formData, "mcp:bookingFormResult", 15000, none⟩)

/-- The HTTP `tools/call` branch's dispatch (`mcpMain.ts` lines
473-497): extract `sessionId` via optional chaining, then pass each
tool its argument — `args?.name` for `clickElement`, `args?.page` for
`navigatePage`, the whole `args` for `fillBookingForm` — with no
argument validation of any kind. All accesses use optional chaining,
so this dispatch is total. The stdio `CallToolRequestSchema` handler
(lines 133-161) dispatches identically whenever `args` is neither
`undefined` nor `null`; its bare `(args as any).name`/`.page` reads,
which throw on absent arguments, are modelled by `stdioDispatchTool`. -/
def dispatchTool (m : Registry) (tool : ToolName) (args : JsVal) : Registry × CallStart :=
  let sessionId := args.getField "sessionId"
  match tool with
  | .getCurrentPage => getCurrentPageStart m sessionId
  | .getClickableElements => getClickableElementsStart m sessionId
  | .clickElement => clickElementStart m sessionId (args.getField "name")
  | .navigatePage => navigatePageStart m sessionId (args.getField "page")
  | .fillBookingForm => fillBookingFormStart m sessionId args

/-- The stdio `CallToolRequestSchema` handler's dispatch (`mcpMain.ts`
lines 133-161): `sessionId` is read with optional chaining
(`(args as any)?.sessionId`, line 137), but `clickElement` and
`navigatePage` read `(args as any).name` / `(args as any).page` bare
(lines 151/154) — when `args` is `undefined` or `null` that access
throws a TypeError before any client lookup, which the handler's catch
surfaces as the error response. The thrown message is the `.error`
value. -/
def stdioDispatchTool (m : Registry) (tool : ToolName) (args : JsVal) :
    Except String (Registry × CallStart) :=
  let sessionId := args.getField "sessionId"
  match tool with
  | .getCurrentPage => .ok (getCurrentPageStart m sessionId)
  | .getClickableElements => .ok (getClickableElementsStart m sessionId)
  | .clickElement =>
      (args.getFieldStrict "name").map (fun v => clickElementStart m sessionId v)
  | .navigatePage =>
      (args.getFieldStrict "page").map (fun v => navigatePageStart m sessionId v)
  | .fillBookingForm => .ok (fillBookingFormStart m sessionId args)

/-- The request events emitted by a stdio dispatch: a synchronous
throw, like a rejection, emits nothing. -/
def stdioEmittedEvents : Except String (Registry × CallStart) →
    List (String × String × JsVal)
  | .error _ => []
  | .ok r => r.2.emittedEvents

/-- Whether a stdio dispatch started a `setTimeout` timer. -/
def stdioTimerStarted : Except String (Registry × CallStart) → Bool
  | .error _ => false
  | .ok r => r.2.timerStarted

/-- The `required` list of the `clickElement` tool's declared
`inputSchema` (`mcpMain.ts` line 87). -/
def clickElementRequiredArgs : List String := ["name"]

/-- The `required` list of the `navigatePage` tool's declared
`inputSchema` (`mcpMain.ts` line 105). -/
def navigatePageRequiredArgs : List String := ["page"]

/-! ## Event-loop machinery for pending calls

A promise settles at most once: the first `resolve`/`reject` wins and
later ones are no-ops. A tool method's handler, when its response event
fires, runs `clearTimeout(timeout); socket.off(responseEvent, handler);
resolve(payload)`. The `setTimeout` callback runs
`reject(new Error('Timeout'))` — and, in `mcpMain.ts`, does **not**
remove the listener. socket.io invokes every handler registered for an
event name, in registration order. -/

/-- How one call's promise settled (first settlement wins). -/
inductive Outcome where
  | resolved (payload : JsVal)
  | rejectedWith (msg : String)
  deriving Repr

/-- One tool call in flight: its promise settlement (if any), the
response event its handler listens on, and whether its `setTimeout`
timer is still armed. -/
structure CallCtx where
  callId : Nat
  responseEvent : String
  outcome : Option Outcome
  timerActive : Bool
  deriving Repr

/-- The event-loop state of one socket connection with its in-flight
calls. `listeners` holds `(eventName, callId)` pairs for each
registered handler, in registration order (socket.io semantics). -/
structure World where
  calls : List CallCtx
  listeners : List (String × Nat)
  deriving Repr

/-- The empty world: no calls, no listeners. -/
def World.empty : World := ⟨[], []⟩

/-- Settle a promise: a no-op when already settled. -/
def settleCall (c : CallCtx) (o : Outcome) : CallCtx :=
  match c.outcome with
  | some _ => c
  | none => { c with outcome := some o }

/-- Apply `f` to the call with the given id. -/
def World.updateCall (w : World) (id : Nat) (f : CallCtx → CallCtx) : World :=
  { w with calls := w.calls.map (fun c => if c.callId = id then f c else c) }

/-- Start a pending call in the world: `socket.on(responseEvent,
handler)` appends a handler for this call, and the timer is armed. -/
def World.startCall (w : World) (id : Nat) (p : PendingCall) : World :=
  { calls := w.calls ++ [⟨id, p.responseEvent, none, true⟩],
    listeners := w.listeners ++ [(p.responseEvent, id)] }

/-- Remove the first registered `(ev, id)` handler
(`socket.off(ev, handler)` removes that one handler). -/
def removeListener (ls : List (String × Nat)) (ev : String) (id : Nat) :
    List (String × Nat) :=
  match ls with
  | [] => []
  | l :: rest =>
      if l.1 = ev ∧ l.2 = id then rest else l :: removeListener rest ev id

/-- One handler firing for call `id` on event `ev` with `payload`:
`clearTimeout` (disarm the timer), `socket.off(ev, handler)`, then
`resolve(payload)` (no-op if the promise already settled). -/
def fireHandler (w : World) (ev : String) (id : Nat) (payload : JsVal) : World :=
  let w := w.updateCall id (fun c => settleCall { c with timerActive := false } (.resolved payload))
  { w with listeners := removeListener w.listeners ev id }

/-- An inbound response event on the connection: socket.io snapshots
the handlers registered for `ev` and invokes each in registration
order. -/
def World.deliverResponse (w : World) (ev : String) (payload : JsVal) : World :=
  let handlers := (w.listeners.filter (fun l => l.1 = ev)).map (fun l => l.2)
  handlers.foldl (fun acc id => fireHandler acc ev id payload) w

/-- The `setTimeout` callback of call `id` firing:
`reject(new Error('Timeout'))`; the listener is left registered
(`mcpMain.ts` has no `socket.off` in the timeout branch). -/
def World.fireTimer (w : World) (id : Nat) : World :=
  w.updateCall id (fun c => settleCall { c with timerActive := false } (.rejectedWith timeoutMsg))

/-- Outcome of call `id`, if settled. -/
def World.outcomeOf (w : World) (id : Nat) : Option Outcome :=
  match w.calls.find? (fun c => c.callId = id) with
  | some c => c.outcome
  | none => none

/-- Whether a handler for `(ev, id)` is still registered. -/
def World.hasListener (w : World) (ev : String) (id : Nat) : Bool :=
  w.listeners.any (fun l => l.1 = ev ∧ l.2 = id)

/-! ## Result and error wrapping

`mcpMain.ts` wraps outcomes in two places: the stdio
`CallToolRequestSchema` handler (lines 163-187) and the HTTP
`tools/call` branch (lines 499-519). Both serialize with
`JSON.stringify(·, null, 2)`; the embedding serializes compactly (the
2-space indentation is presentation only and never inspected by the
code). -/

/-- JSON string escaping for quote and backslash. -/
def jsonEscapeChar (c : Char) : String :=
  if c = '"' then "\\\"" else if c = '\\' then "\\\\" else String.singleton c

/-- Render a string as a JSON string literal. -/
def jsonQuote (s : String) : String :=
  "\"" ++ String.join (s.toList.map jsonEscapeChar) ++ "\""

mutual

/-- `JSON.stringify`: objects skip `undefined`-valued fields, arrays
render `undefined` elements as `null` (JavaScript semantics). -/
def jsonStringify : JsVal → String
  | .str s => jsonQuote s
  | .num n => toString n
  | .boolean b => cond b "true" "false"
  | .null => "null"
  | .undef => "undefined"
  | .obj fields => "\x7b" ++ String.intercalate "," (jsonFieldStrs fields) ++ "\x7d"
  | .arr elems => "[" ++ String.intercalate "," (jsonElemStrs elems) ++ "]"

/-- Rendered `key:value` strings of an object's fields,
`undefined`-valued fields omitted. -/
def jsonFieldStrs : List (String × JsVal) → List String
  | [] => []
  | (k, v) :: rest =>
      match v with
      | .undef => jsonFieldStrs rest
      | v => (jsonQuote k ++ ":" ++ jsonStringify v) :: jsonFieldStrs rest

/-- Rendered element strings of an array. -/
def jsonElemStrs : List JsVal → List String
  | [] => []
  | v :: rest =>
      (match v with
       | .undef => "null"
       | v => jsonStringify v) :: jsonElemStrs rest

end

/-- The wire name of each tool. -/
def ToolName.toStr : ToolName → String
  | .getCurrentPage => "getCurrentPage"
  | .getClickableElements => "getClickableElements"
  | .clickElement => "clickElement"
  | .navigatePage => "navigatePage"
  | .fillBookingForm => "fillBookingForm"

/-- Stdio handler, success branch (lines 163-170): the resolved result
serialized into `content[0].text`, no error flag. -/
def stdioSuccessResponse (result : JsVal) : JsVal :=
  .obj [("content", .arr [.obj [("type", .str "text"),
          ("text", .str (jsonStringify result))]])]

/-- Stdio handler, catch branch (lines 171-186): the failure serialized
as a text content payload `{error, message, tool, sessionId}` with
`isError: true`. -/
def stdioErrorResponse (message : String) (toolName : String) (sessionId : JsVal) : JsVal :=
  .obj [("content", .arr [.obj [("type", .str "text"),
          ("text", .str (jsonStringify (.obj
            [("error", .boolean true), ("message", .str message),
             ("tool", .str toolName), ("sessionId", sessionId)])))]]),
        ("isError", .boolean true)]

/-- HTTP `tools/call`, success branch (lines 499-506): the JSON-RPC
result envelope with the serialized payload in `result.content[0].text`. -/
def httpSuccessResponse (id : JsVal) (result : JsVal) : JsVal :=
  .obj [("jsonrpc", .str "2.0"), ("id", id),
        ("result", .obj [("content", .arr [.obj [("type", .str "text"),
          ("text", .str (jsonStringify result))]])])]

/-- HTTP `tools/call`, catch branch (lines 507-519): the JSON-RPC error
envelope `{code: -32603, message, data: {tool, args}}`. -/
def httpErrorResponse (id : JsVal) (message : String) (toolName : String) (args : JsVal) : JsVal :=
  .obj [("jsonrpc", .str "2.0"), ("id", id),
        ("error", .obj [("code", .num (-32603)), ("message", .str message),
          ("data", .obj [("tool", .str toolName), ("args", args)])])]

/-! ## The SocketManager revision (`src/unnamed/part_004`)

Its `clientSessions : Map<string, ClientSession>` tracks
`lastActivity`; `startSessionCleanup` sweeps it. -/

/-- `ClientSession` of `part_004`: id, current page, last-activity
timestamp (milliseconds since epoch) and the Next.js flag. -/
structure ClientSession where
  id : String
  currentPage : String
  lastActivity : Int
  isNextJsClient : Bool
  deriving DecidableEq, Repr

/-- `startSessionCleanup`'s `setInterval` period:
`5 * 60 * 1000` ms (the `// 5 minutes` comment in the source). -/
def sessionCleanupIntervalMs : Nat := 5 * 60 * 1000

/-- The idle window of the sweep: `fiveMinutesAgo = now - 5 * 60 * 1000`. -/
def sessionMaxIdleMs : Int := 5 * 60 * 1000

/-- The body of `startSessionCleanup`'s interval callback: delete every
session with `lastActivity < now - 5 * 60 * 1000` (deleting the
currently-iterated key of a JS `Map` is safe, so the loop is the
filter keeping the rest). -/
def sweepInactiveSessions (now : Int) (sessions : List (String × ClientSession)) :
    List (String × ClientSession) :=
  let fiveMinutesAgo := now - 5 * 60 * 1000
  sessions.filter (fun p => !decide (p.2.lastActivity < fiveMinutesAgo))

/-! ## Helper lemmas -/

/-- Folding `mapDelete` over a list of keys filters out exactly the
entries whose key occurs in that list. -/
lemma foldl_mapDelete (S : List String) (m : Registry) :
    S.foldl (fun acc k => mapDelete acc k) m
      = m.filter (fun p => !decide (p.1 ∈ S)) := by
  induction S generalizing m with
  | nil => simp
  | cons k rest ih =>
      rw [List.foldl_cons, ih, mapDelete, List.filter_filter]
      apply List.filter_congr
      intro p _
      by_cases h : p.1 = k <;> simp [h]

/-- With pairwise-distinct keys, `cleanupStaleConnections` is exactly
the filter keeping the connected entries. -/
lemma cleanupStaleConnections_eq_filter (m : Registry)
    (hm : (m.map Prod.fst).Nodup) :
    cleanupStaleConnections m = m.filter (fun p => p.2.connected) := by
  unfold cleanupStaleConnections
  rw [foldl_mapDelete]
  apply List.filter_congr
  intro p hp
  by_cases hc : p.2.connected = true
  · simp only [hc, Bool.not_eq_true']
    rw [decide_eq_false_iff_not]
    intro hmem
    rcases List.mem_map.mp hmem with ⟨q, hq, hq1⟩
    rcases List.mem_filter.mp hq with ⟨hqm, hqc⟩
    have hqp : q = p := List.inj_on_of_nodup_map hm hqm hp hq1
    rw [hqp] at hqc
    simp [hc] at hqc
  · have hc' : p.2.connected = false := by
      cases h : p.2.connected
      · rfl
      · exact absurd h hc
    have hmem : p.1 ∈ (m.filter (fun q => !q.2.connected)).map Prod.fst :=
      List.mem_map.mpr ⟨p, List.mem_filter.mpr ⟨hp, by simp [hc']⟩, rfl⟩
    simp [hmem, hc']

/-- With pairwise-distinct keys, `getBestAvailableClient` keeps exactly
the connected entries and selects the last of them (the most recently
registered connected client). -/
lemma getBestAvailableClient_eq (m : Registry)
    (hm : (m.map Prod.fst).Nodup) :
    getBestAvailableClient m
      = (m.filter (fun p => p.2.connected),
         ((m.filter (fun p => p.2.connected)).getLast?).map (fun p => p.2)) := by
  unfold getBestAvailableClient
  rw [cleanupStaleConnections_eq_filter m hm]
  by_cases h0 : (m.filter (fun p => p.2.connected)).length = 0
  · have hnil : m.filter (fun p => p.2.connected) = [] := List.length_eq_zero.mp h0
    simp [hnil]
  · have hidem : (m.filter (fun p => p.2.connected)).filter (fun p => p.2.connected)
        = m.filter (fun p => p.2.connected) := by
      rw [List.filter_filter]
      apply List.filter_congr
      intro p _
      simp
    simp [h0, hidem]

/-- The five tool methods all reject without selecting anything when
the registry is empty. -/
lemma selectSocket_nil (v : JsVal) : selectSocket [] v = ([], none) := by
  unfold selectSocket
  split
  · cases v <;> rfl
  · rfl

/-! ## Claim theorems -/

/-- C1 (counterexample): a stdio `clickElement` call with the
arguments value absent, issued against the empty registry, fails with
the TypeError thrown by the bare `(args as any).name` read — not with
the `No Next.js client connected` error the claim requires for every
tool call on an empty registry. -/
theorem absent_args_typeerror_not_noclient :
    stdioDispatchTool [] .clickElement .undef
      = .error ("Cannot read properties of undefined (reading " ++
          JsVal.sq ++ "name" ++ JsVal.sq ++ ")") ∧
    ("Cannot read properties of undefined (reading " ++
        JsVal.sq ++ "name" ++ JsVal.sq ++ ")") ≠ noClientMsg :=
  ⟨rfl, by decide⟩

/-- C1 (amended): every tool call dispatched against an empty client
registry fails in the synchronous prefix — on both transports nothing
is emitted to any client and no timeout timer is even started, so the
call cannot hang past the configured timeout. The failure is the
`No Next.js client connected` rejection, except that the stdio
handler's bare property reads make `clickElement` and `navigatePage`
fail with the thrown TypeError message instead when the arguments
value is `undefined` or `null`. -/
theorem empty_registry_fails_before_any_client (t : ToolName) (args : JsVal) :
    (dispatchTool [] t args = ([], .rejected noClientMsg) ∧
     ((dispatchTool [] t args).2).emittedEvents = [] ∧
     ((dispatchTool [] t args).2).timerStarted = false) ∧
    stdioDispatchTool [] t args
      = (match t, args with
         | .clickElement, .undef =>
             .error ("Cannot read properties of undefined (reading " ++
               JsVal.sq ++ "name" ++ JsVal.sq ++ ")")
         | .clickElement, .null =>
             .error ("Cannot read properties of null (reading " ++
               JsVal.sq ++ "name" ++ JsVal.sq ++ ")")
         | .navigatePage, .undef =>
             .error ("Cannot read properties of undefined (reading " ++
               JsVal.sq ++ "page" ++ JsVal.sq ++ ")")
         | .navigatePage, .null =>
             .error ("Cannot read properties of null (reading " ++
               JsVal.sq ++ "page" ++ JsVal.sq ++ ")")
         | _, _ => .ok ([], .rejected noClientMsg)) ∧
    stdioEmittedEvents (stdioDispatchTool [] t args) = [] ∧
    stdioTimerStarted (stdioDispatchTool [] t args) = false := by
  cases t <;> cases args <;>
    simp [dispatchTool, stdioDispatchTool, getCurrentPageStart, getClickableElementsStart,
      clickElementStart, navigatePageStart, fillBookingFormStart, selectSocket_nil,
      CallStart.emittedEvents, CallStart.timerStarted, stdioEmittedEvents,
      stdioTimerStarted, JsVal.getFieldStrict, Except.map]

/-- C3 (code bug): `clickElement` invoked with the `name` argument
absent, and `navigatePage` invoked with the `page` argument absent,
never fail with `InvalidArgument`: with one connected client the
dispatcher still emits the request event, carrying `undefined` as the
payload, even though the tools' own declared input schemas list `name`
respectively `page` as required. -/
theorem missing_required_arg_still_emits :
    (dispatchTool [("c1", ⟨"c1", true⟩)] .clickElement (.obj [])).2.emittedEvents
      = [("c1", "mcp:clickElement", .undef)] ∧
    (dispatchTool [("c1", ⟨"c1", true⟩)] .navigatePage (.obj [])).2.emittedEvents
      = [("c1", "mcp:navigatePage", .undef)] ∧
    clickElementRequiredArgs = ["name"] ∧
    navigatePageRequiredArgs = ["page"] :=
  ⟨rfl, rfl, rfl, rfl⟩

/-! Concrete scenario: one connected client `c1`, two concurrent
`clickElement` calls (ids 0 and 1) against it, and the client's
response to the first call. -/

/-- A registry holding the single connected client `c1`. -/
def toolRegistry : Registry := [("c1", ⟨"c1", true⟩)]

/-- The pending request built by `clickElement` for `{name: "x"}`. -/
def pendingA : PendingCall :=
  ⟨"c1", "mcp:clickElement", .str "x", "mcp:clickResult", 10000, none⟩

/-- The pending request built by `clickElement` for `{name: "y"}`. -/
def pendingB : PendingCall :=
  ⟨"c1", "mcp:clickElement", .str "y", "mcp:clickResult", 10000, none⟩

/-- The client's `mcp:clickResult` payload answering the click on `x`
(the response addressed to call 0). -/
def responseX : JsVal :=
  .obj [("success", .boolean true), ("elementName", .str "x")]

/-- C2 (code bug): neither outgoing `clickElement` request carries any
correlation id, and when two calls of the same tool are concurrently
pending against the same client, the one response addressed to call 0
settles **both** promises — call 1 resolves with call 0's payload
(cross-delivery), because both handlers listen on the bare
`mcp:clickResult` event name with no id filtering. -/
theorem concurrent_same_tool_cross_delivery :
    (dispatchTool toolRegistry .clickElement (.obj [("name", .str "x")])).2
        = .pending pendingA ∧
    (dispatchTool toolRegistry .clickElement (.obj [("name", .str "y")])).2
        = .pending pendingB ∧
    pendingA.correlationId = none ∧
    pendingB.correlationId = none ∧
    (((World.empty.startCall 0 pendingA).startCall 1 pendingB).deliverResponse
        "mcp:clickResult" responseX).outcomeOf 0 = some (.resolved responseX) ∧
    (((World.empty.startCall 0 pendingA).startCall 1 pendingB).deliverResponse
        "mcp:clickResult" responseX).outcomeOf 1 = some (.resolved responseX) :=
  ⟨rfl, rfl, rfl, rfl, rfl, rfl⟩

/-- C4 (code bug): when the correlation timer of call 0 wins, the call
rejects with `Timeout` but its `mcp:clickResult` listener is **not**
removed from the connection (`mcpMain.ts` has no `socket.off` in the
timeout branch); a second call started afterwards then receives the
first call's late response instead of having it dropped. -/
theorem timeout_leaves_listener_late_delivery :
    ((World.empty.startCall 0 pendingA).fireTimer 0).hasListener
        "mcp:clickResult" 0 = true ∧
    ((World.empty.startCall 0 pendingA).fireTimer 0).outcomeOf 0
        = some (.rejectedWith timeoutMsg) ∧
    ((((World.empty.startCall 0 pendingA).fireTimer 0).startCall 1
        pendingB).deliverResponse "mcp:clickResult" responseX).outcomeOf 1
        = some (.resolved responseX) :=
  ⟨rfl, rfl, rfl⟩

/-- An explicit non-empty session id is looked up directly in the
registry; when absent, no socket is selected and the registry is left
untouched (the best-available fallback is not consulted). -/
lemma selectSocket_unknown (m : Registry) (s : String) (hne : s ≠ "")
    (hmiss : mapGet m s = none) :
    selectSocket m (.str s) = (m, none) := by
  unfold selectSocket
  simp [JsVal.truthy, hne, hmiss]

/-- C6: every tool call carrying an explicit `sessionId` that is not a
key of the client registry rejects with the `No Next.js client
connected` error and emits nothing — the dispatcher never substitutes
another connected client for the requested one. -/
theorem unknown_explicit_sessionId_rejects (t : ToolName) (m : Registry)
    (args : JsVal) (s : String) (hs : args.getField "sessionId" = .str s)
    (hne : s ≠ "") (hmiss : mapGet m s = none) :
    dispatchTool m t args = (m, .rejected noClientMsg) ∧
    ((dispatchTool m t args).2).emittedEvents = [] := by
  have hsel := selectSocket_unknown m s hne hmiss
  cases t <;>
    simp [dispatchTool, getCurrentPageStart, getClickableElementsStart, clickElementStart,
      navigatePageStart, fillBookingFormStart, hs, hsel, CallStart.emittedEvents]

/-- Witness for C6: the registry holds only client `a`, the call asks
for session `b`, and the `clickElement` call is rejected without any
emission. -/
theorem unknown_explicit_sessionId_rejects_witness :
    dispatchTool [("a", ⟨"a", true⟩)] .clickElement (.obj [("sessionId", .str "b")])
        = ([("a", ⟨"a", true⟩)], .rejected noClientMsg) ∧
    ((dispatchTool [("a", ⟨"a", true⟩)] .clickElement
        (.obj [("sessionId", .str "b")])).2).emittedEvents = [] :=
  unknown_explicit_sessionId_rejects .clickElement [("a", ⟨"a", true⟩)]
    (.obj [("sessionId", .str "b")]) "b" rfl (by decide) rfl

/-- C7: with pairwise-distinct registry keys, implicit selection first
discards every entry whose socket reports disconnected and then returns
the last (most recently registered) of the remaining connected
entries; concretely, with clients `a` then `b` registered and
connected it selects `b`, and after `b`'s disconnect handler runs a
subsequent selection returns `a`. -/
theorem best_available_client_selection (m : Registry)
    (hm : (m.map Prod.fst).Nodup) :
    getBestAvailableClient m
      = (m.filter (fun p => p.2.connected),
         ((m.filter (fun p => p.2.connected)).getLast?).map (fun p => p.2)) ∧
    (getBestAvailableClient
        (registerClient (registerClient [] ⟨"a", true⟩) ⟨"b", true⟩)).2
      = some ⟨"b", true⟩ ∧
    (getBestAvailableClient
        (disconnectClient
          (registerClient (registerClient [] ⟨"a", true⟩) ⟨"b", true⟩) "b")).2
      = some ⟨"a", true⟩ :=
  ⟨getBestAvailableClient_eq m hm, rfl, rfl⟩

/-- Witness for C7: on a registry holding connected `a` and
disconnected `b`, selection drops `b` and returns `a`. -/
theorem best_available_client_selection_witness :
    getBestAvailableClient [("a", ⟨"a", true⟩), ("b", ⟨"b", false⟩)]
      = ([("a", ⟨"a", true⟩)], some ⟨"a", true⟩) ∧
    (getBestAvailableClient
        (registerClient (registerClient [] ⟨"a", true⟩) ⟨"b", true⟩)).2
      = some ⟨"b", true⟩ ∧
    (getBestAvailableClient
        (disconnectClient
          (registerClient (registerClient [] ⟨"a", true⟩) ⟨"b", true⟩) "b")).2
      = some ⟨"a", true⟩ :=
  best_available_client_selection [("a", ⟨"a", true⟩), ("b", ⟨"b", false⟩)] (by decide)

/-- The stdio catch branch applied to a failed call of tool `t` with
arguments `args` (lines 171-186): it serializes the caught error's
message together with the tool name and the `sessionId` extracted from
the arguments — nothing else of the arguments. -/
def stdioFailureOf (t : ToolName) (args : JsVal) (message : String) : JsVal :=
  stdioErrorResponse message t.toStr (args.getField "sessionId")

/-- Every dispatch that reaches the pending state selected some socket
and built exactly the per-tool request: event names, payload, response
event, timeout budget, and no correlation id. -/
lemma dispatchTool_pending (t : ToolName) (m m' : Registry) (args : JsVal)
    (p : PendingCall) (h : dispatchTool m t args = (m', .pending p)) :
    ∃ s : Socket, (selectSocket m (args.getField "sessionId")).2 = some s ∧
      p = (match t with
        | .getCurrentPage =>
            ⟨s.id, "mcp:getCurrentPage", .undef, "mcp:pageInfo", 5000, none⟩
        | .getClickableElements =>
            ⟨s.id, "mcp:getClickableElements", .undef, "mcp:clickableElements", 5000, none⟩
        | .clickElement =>
            ⟨s.id, "mcp:clickElement", args.getField "name", "mcp:clickResult", 10000, none⟩
        | .navigatePage =>
            ⟨s.id, "mcp:navigatePage", args.getField "page", "mcp:navigationResult", 10000, none⟩
        | .fillBookingForm =>
            ⟨s.id, "mcp:fillBookingForm", args, "mcp:bookingFormResult", 15000, none⟩) := by
  cases t <;>
  · simp only [dispatchTool, getCurrentPageStart, getClickableElementsStart,
      clickElementStart, navigatePageStart, fillBookingFormStart] at h
    rcases hsel : selectSocket m (args.getField "sessionId") with ⟨m2, sock⟩
    rw [hsel] at h
    cases sock with
    | none => simp at h
    | some s =>
        refine ⟨s, by simp [hsel], ?_⟩
        simp only [Prod.mk.injEq, CallStart.pending.injEq] at h
        exact h.2.symm

/-- The timer callback of a freshly started call rejects it with the
bare `'Timeout'` message. -/
lemma fireTimer_rejects (p : PendingCall) (n : Nat) :
    ((World.empty.startCall n p).fireTimer n).outcomeOf n
      = some (.rejectedWith timeoutMsg) := by
  simp [World.empty, World.startCall, World.fireTimer, World.updateCall, settleCall,
    World.outcomeOf]

/-- C5 (counterexample): two timed-out `clickElement` calls with
distinct arguments produce identical stdio failure responses, and the
rejection message is the bare string `Timeout`; the Timeout error
therefore cannot carry the call's arguments. -/
theorem timeout_error_drops_arguments :
    stdioFailureOf .clickElement (.obj [("name", .str "a")]) timeoutMsg
      = stdioFailureOf .clickElement (.obj [("name", .str "b")]) timeoutMsg ∧
    (JsVal.obj [("name", .str "a")]) ≠ (JsVal.obj [("name", .str "b")]) ∧
    timeoutMsg = "Timeout" := by
  refine ⟨rfl, ?_, rfl⟩
  intro h
  simp at h

/-- C5 (amended): every pending tool call carries its per-tool timeout
budget (5000 ms for the two read-only queries, 10000 ms for click and
navigate, 15000 ms for form fill); on timer win the promise rejects
with the bare message `Timeout`; the tool name and full arguments are
attached only by the HTTP dispatcher's error wrapper (which determines
the arguments), while the stdio wrapper attaches the tool name and
only the `sessionId` extracted from the arguments. -/
theorem timeout_budgets_and_error_wrapping (t : ToolName) (m m' : Registry)
    (args : JsVal) (p : PendingCall)
    (h : dispatchTool m t args = (m', .pending p))
    (idv : JsVal) (msg : String) (a₁ a₂ : JsVal)
    (hEq : httpErrorResponse idv msg t.toStr a₁ = httpErrorResponse idv msg t.toStr a₂) :
    p.timeoutMs = (match t with
      | .getCurrentPage => 5000
      | .getClickableElements => 5000
      | .clickElement => 10000
      | .navigatePage => 10000
      | .fillBookingForm => 15000) ∧
    ((World.empty.startCall 0 p).fireTimer 0).outcomeOf 0
      = some (.rejectedWith timeoutMsg) ∧
    a₁ = a₂ ∧
    stdioFailureOf t args timeoutMsg
      = stdioErrorResponse timeoutMsg t.toStr (args.getField "sessionId") := by
  obtain ⟨s, _, hp⟩ := dispatchTool_pending t m m' args p h
  refine ⟨?_, fireTimer_rejects p 0, ?_, rfl⟩
  · cases t <;> simp [hp]
  · simp only [httpErrorResponse, JsVal.obj.injEq, List.cons.injEq, Prod.mk.injEq,
      JsVal.str.injEq, and_true, true_and] at hEq
    tauto

/-- Witness for C5: a `clickElement` call against connected client `c1`
gets the 10000 ms budget, rejects with `Timeout` when the timer wins,
and the instantiated wrapping facts hold. -/
theorem timeout_budgets_and_error_wrapping_witness :
    (⟨"c1", "mcp:clickElement", .str "x", "mcp:clickResult", 10000, none⟩
        : PendingCall).timeoutMs = 10000 ∧
    ((World.empty.startCall 0
        ⟨"c1", "mcp:clickElement", .str "x", "mcp:clickResult", 10000, none⟩).fireTimer
        0).outcomeOf 0 = some (.rejectedWith timeoutMsg) ∧
    (JsVal.obj []) = (JsVal.obj []) ∧
    stdioFailureOf .clickElement (.obj [("name", .str "x")]) timeoutMsg
      = stdioErrorResponse timeoutMsg "clickElement"
          ((JsVal.obj [("name", .str "x")]).getField "sessionId") :=
  timeout_budgets_and_error_wrapping .clickElement [("c1", ⟨"c1", true⟩)]
    [("c1", ⟨"c1", true⟩)] (.obj [("name", .str "x")])
    ⟨"c1", "mcp:clickElement", .str "x", "mcp:clickResult", 10000, none⟩ rfl
    (.num 1) "Timeout" (.obj []) (.obj []) rfl

/-- C8 (counterexample): a failed `fillBookingForm` call surfaced over
the stdio transport is not a JSON-RPC error object — the response has
no `error` member (hence no machine code, only the `isError` content
flag), and two failures with distinct arguments produce identical
responses, so the arguments are not echoed. -/
theorem stdio_failure_not_jsonrpc_error :
    dispatchTool [] .fillBookingForm (.obj [("guests", .num 2)])
      = ([], .rejected noClientMsg) ∧
    stdioFailureOf .fillBookingForm (.obj [("guests", .num 2)]) noClientMsg
      = stdioFailureOf .fillBookingForm (.obj [("guests", .num 3)]) noClientMsg ∧
    (JsVal.obj [("guests", .num 2)]) ≠ (JsVal.obj [("guests", .num 3)]) ∧
    (stdioFailureOf .fillBookingForm (.obj [("guests", .num 2)])
        noClientMsg).getField "error" = .undef ∧
    (stdioFailureOf .fillBookingForm (.obj [("guests", .num 2)])
        noClientMsg).getField "isError" = .boolean true := by
  refine ⟨rfl, rfl, ?_, rfl, rfl⟩
  intro h
  simp at h

/-- C8 (amended): a pending call resolves with exactly the payload the
client delivered on the response event, both transports serialize a
success into the `result.content[0].text` shape (the HTTP envelope's
`result` member equals the stdio success response), the HTTP failure
path is a JSON-RPC error object with machine code `-32603` and a data
blob echoing the tool name and arguments verbatim, while the stdio
failure path is only an `isError`-flagged content payload. -/
theorem result_wrapping_shapes (n : Nat) (p : PendingCall)
    (payload idv result args : JsVal) (t : ToolName) (msg : String) :
    ((World.empty.startCall n p).deliverResponse p.responseEvent
        payload).outcomeOf n = some (.resolved payload) ∧
    (httpSuccessResponse idv result).getField "result"
      = stdioSuccessResponse result ∧
    stdioSuccessResponse result
      = .obj [("content", .arr [.obj [("type", .str "text"),
          ("text", .str (jsonStringify result))]])] ∧
    ((httpErrorResponse idv msg t.toStr args).getField "error").getField "code"
      = .num (-32603) ∧
    ((httpErrorResponse idv msg t.toStr args).getField "error").getField "data"
      = .obj [("tool", .str t.toStr), ("args", args)] ∧
    (stdioFailureOf t args msg).getField "isError" = .boolean true := by
  refine ⟨?_, rfl, rfl, rfl, rfl, rfl⟩
  simp [World.empty, World.startCall, World.deliverResponse, fireHandler,
    World.updateCall, settleCall, removeListener, World.outcomeOf]

/-- C9 (counterexample): the sweep that runs on the 30-second interval
(`cleanupStaleConnections`) removes a disconnected entry and keeps a
connected one — no `lastActivity` is part of its state at all — while
the sweep that applies the 5-minute `lastActivity` criterion
(`startSessionCleanup` in the SocketManager revision) runs on a
300000 ms interval, not 30000 ms. -/
theorem sweep_interval_criterion_counterexample :
    cleanupIntervalMs = 30000 ∧
    cleanupStaleConnections [("a", ⟨"a", false⟩)] = [] ∧
    cleanupStaleConnections [("b", ⟨"b", true⟩)] = [("b", ⟨"b", true⟩)] ∧
    sessionCleanupIntervalMs = 300000 ∧
    sessionCleanupIntervalMs ≠ cleanupIntervalMs ∧
    sweepInactiveSessions 1000000
        [("s", ⟨"s", "/", 1000000, true⟩), ("old", ⟨"old", "/", 0, true⟩)]
      = [("s", ⟨"s", "/", 1000000, true⟩)] :=
  ⟨rfl, rfl, rfl, rfl, by decide, rfl⟩

/-- C9 (amended): `cleanupStaleConnections`, scheduled every 30
seconds, keeps exactly the registry entries whose socket reports
connected; the SocketManager's session sweep keeps exactly the
sessions whose `lastActivity` is within the 5-minute `maxIdle` window,
but is scheduled every 5 minutes. -/
theorem sweeps_remove_exactly (m : Registry) (hm : (m.map Prod.fst).Nodup)
    (p : String × Socket) (now : Int) (ss : List (String × ClientSession))
    (e : String × ClientSession) :
    (p ∈ cleanupStaleConnections m ↔ p ∈ m ∧ p.2.connected = true) ∧
    cleanupIntervalMs = 30000 ∧
    (e ∈ sweepInactiveSessions now ss ↔
        e ∈ ss ∧ ¬(e.2.lastActivity < now - sessionMaxIdleMs)) ∧
    sessionCleanupIntervalMs = 5 * 60 * 1000 := by
  refine ⟨?_, rfl, ?_, rfl⟩
  · rw [cleanupStaleConnections_eq_filter m hm]
    simp [List.mem_filter]
  · simp [sweepInactiveSessions, List.mem_filter, sessionMaxIdleMs]

/-- Witness for C9: concrete instantiation — the connected entry `b`
survives the connection sweep of a two-entry registry, and a session
idle since timestamp 0 is dropped at time 1000000. -/
theorem sweeps_remove_exactly_witness :
    (("b", (⟨"b", true⟩ : Socket))
        ∈ cleanupStaleConnections [("a", ⟨"a", false⟩), ("b", ⟨"b", true⟩)] ↔
      ("b", (⟨"b", true⟩ : Socket))
          ∈ [("a", (⟨"a", false⟩ : Socket)), ("b", ⟨"b", true⟩)] ∧
        (⟨"b", true⟩ : Socket).connected = true) ∧
    cleanupIntervalMs = 30000 ∧
    (("old", (⟨"old", "/", 0, true⟩ : ClientSession))
        ∈ sweepInactiveSessions 1000000 [("old", ⟨"old", "/", 0, true⟩)] ↔
      ("old", (⟨"old", "/", 0, true⟩ : ClientSession))
          ∈ [("old", (⟨"old", "/", 0, true⟩ : ClientSession))] ∧
        ¬((⟨"old", "/", 0, true⟩ : ClientSession).lastActivity
            < 1000000 - sessionMaxIdleMs)) ∧
    sessionCleanupIntervalMs = 5 * 60 * 1000 :=
  sweeps_remove_exactly [("a", ⟨"a", false⟩), ("b", ⟨"b", true⟩)] (by decide)
    ("b", ⟨"b", true⟩) 1000000 [("old", ⟨"old", "/", 0, true⟩)]
    ("old", ⟨"old", "/", 0, true⟩)

/-- C10: whenever a `fillBookingForm` dispatch reaches a client, the
`formData` payload emitted on `mcp:fillBookingForm` is the whole
caller-supplied arguments value, unmodified. -/
theorem fillBookingForm_forwards_args_verbatim (m m' : Registry)
    (args : JsVal) (p : PendingCall)
    (h : dispatchTool m .fillBookingForm args = (m', .pending p)) :
    p.requestEvent = "mcp:fillBookingForm" ∧ p.requestPayload = args := by
  obtain ⟨s, _, hp⟩ := dispatchTool_pending .fillBookingForm m m' args p h
  rw [hp]
  exact ⟨rfl, rfl⟩

/-- Witness for C10: arguments carrying a `sessionId` routing field are
forwarded whole — the emitted payload still contains the `sessionId`. -/
theorem fillBookingForm_forwards_args_verbatim_witness :
    (⟨"s1", "mcp:fillBookingForm",
        .obj [("sessionId", .str "s1"), ("guests", .num 2)],
        "mcp:bookingFormResult", 15000, none⟩ : PendingCall).requestEvent
      = "mcp:fillBookingForm" ∧
    (⟨"s1", "mcp:fillBookingForm",
        .obj [("sessionId", .str "s1"), ("guests", .num 2)],
        "mcp:bookingFormResult", 15000, none⟩ : PendingCall).requestPayload
      = .obj [("sessionId", .str "s1"), ("guests", .num 2)] :=
  fillBookingForm_forwards_args_verbatim [("s1", ⟨"s1", true⟩)]
    [("s1", ⟨"s1", true⟩)] (.obj [("sessionId", .str "s1"), ("guests", .num 2)])
    ⟨"s1", "mcp:fillBookingForm",
      .obj [("sessionId", .str "s1"), ("guests", .num 2)],
      "mcp:bookingFormResult", 15000, none⟩ rfl

end McpRelay
